import Mathlib

/-!
Verification of the BT-Bridge/openai-realtime repository (Go).

This file gives a shallow embedding, in Lean 4, of the parts of the
repository that the checked claims are about:

* the bounded audio ring buffer (`tools/funcs.go`, `AudioBuffer`);
* the server-event protocol layer (`events` file of the `realtime`
  package: `ServerEvent`, the 43 `ServerEventParam*` shapes and their
  `New`/`Json` contracts, `UnmarshalJSON`/`MarshalJSON` on the generic
  key-value map left after JSON parsing);
* the CLI transcript turn-taking state machine (`agents` package,
  `CLIState.PipeEvent`);
* the session lifecycle controller (`Client.Close`, `Client.respectCtx`,
  the `OnConnectionStateChange` handler registered in `NewClient`, and the
  connect-wait with a 10-second timeout in the older `Client.Start`).

Go `map[string]any` values decoded from JSON are modelled as association
lists with string keys (`Jmap`); JSON numbers, which the Go code receives
as `float64`, are modelled as rationals.  Mutable state is passed
explicitly; goroutine interleavings (for the ring-buffer reader/writer
claim) are modelled by a step relation.
-/

/-! ## Bounded audio ring buffer (tools/funcs.go) -/

/-- Model of `tools.AudioBuffer`: the byte slice, the occupied size and the
fixed capacity.  Byte values are modelled as `Nat`; `size` and `cap` are Go
`int`s that are non-negative in every state the program constructs. -/
structure AudioBuffer where
  buffer : List Nat
  size : Nat
  cap : Nat

/-- Model of `tools.NewAudioBuffer` (funcs.go): empty buffer with the given
fixed capacity. -/
def NewAudioBuffer (fixedCap : Nat) : AudioBuffer :=
  ⟨[], 0, fixedCap⟩

/-- Model of `(*AudioBuffer).Write` (funcs.go lines 120-133).  On overflow
the oldest `size + len(data) - cap` bytes are dropped by re-slicing
`ab.buffer = ab.buffer[drop:]`; in Go that re-slice panics when `drop`
exceeds `len(ab.buffer)` (which happens exactly when `len(data) > cap`),
modelled here as `none`.  Otherwise the result is the dropped byte count
and the updated buffer. -/
def audioBufferWrite (ab : AudioBuffer) (data : List Nat) : Option (Nat × AudioBuffer) :=
  if ab.size + data.length > ab.cap then
    let drop := ab.size + data.length - ab.cap
    if drop ≤ ab.buffer.length then
      some (drop, ⟨ab.buffer.drop drop ++ data, ab.size - drop + data.length, ab.cap⟩)
    else
      none
  else
    some (0, ⟨ab.buffer ++ data, ab.size + data.length, ab.cap⟩)

/-- Model of the non-blocking core of `(*AudioBuffer).Read` (funcs.go lines
135-145) once `size > 0`: `n = copy(p, ab.buffer)` copies
`min (len p) (len buffer)` bytes, the buffer is re-sliced past them and the
size decreased.  The blocking wait around it is modelled separately as a
step relation (`RBStep`). -/
def audioBufferReadCore (ab : AudioBuffer) (pLen : Nat) : Nat × AudioBuffer :=
  let n := min pLen ab.buffer.length
  (n, ⟨ab.buffer.drop n, ab.size - n, ab.cap⟩)

/-- Well-formedness of a ring-buffer state: the tracked size agrees with the
byte slice.  It holds for `NewAudioBuffer` and is preserved by every
operation. -/
def AudioBuffer.wf (ab : AudioBuffer) : Prop :=
  ab.size = ab.buffer.length

/-! ## Generic JSON values and maps

The event layer works on the `map[string]any` that `sonic.Unmarshal`
produces.  JSON values are modelled by `Json`; maps by association lists
with string keys (Go maps are unordered, and the decoder only ever reads
maps through key lookup, so list order carries no meaning). -/

/-- A parsed JSON value as the Go code sees it (`any` after
`sonic.Unmarshal`): null, booleans, numbers (Go `float64`, modelled as
rationals), strings, arrays and objects. -/
inductive Json where
  | null : Json
  | bool (b : Bool) : Json
  | num (q : Rat) : Json
  | str (s : String) : Json
  | arr (elems : List Json) : Json
  | obj (fields : List (String × Json)) : Json

/-- An object / Go `map[string]any`, as an association list. -/
abbrev Jmap := List (String × Json)

/-- Key lookup in a `Jmap` (Go `m[k]`, first match). -/
def mlookup : Jmap → String → Option Json
  | [], _ => none
  | (k', v) :: rest, k => if k' = k then some v else mlookup rest k

/-- Go `v, ok := m[k].(string)`. -/
def getStr (m : Jmap) (k : String) : Option String :=
  match mlookup m k with
  | some (.str s) => some s
  | _ => none

/-- Go `v, ok := m[k].(map[string]any)`. -/
def getObj (m : Jmap) (k : String) : Option Jmap :=
  match mlookup m k with
  | some (.obj o) => some o
  | _ => none

/-- Go `delete(m, k)`. -/
def mdelete (m : Jmap) (k : String) : Jmap :=
  m.filter (fun kv => kv.1 ≠ k)

/-- Go `m[k] = v` (insert or overwrite; the list is kept duplicate-free by
removing any earlier binding). -/
def minsert (m : Jmap) (k : String) (v : Json) : Jmap :=
  mdelete m k ++ [(k, v)]

/-- Truncation toward zero, the semantics of Go's `int(f)` on a `float64`. -/
def ratTrunc (q : Rat) : Int :=
  if q < 0 then ⌈q⌉ else ⌊q⌋

/-- Model of the `asInt` helper of the event layer applied to `m[k]`: after
`sonic.Unmarshal` every JSON number is a `float64`, so the relevant arm is
the `float64` one, `int(n)` (truncation); every non-number yields
`(0, false)`, modelled as `none`. -/
def asInt (v : Option Json) : Option Int :=
  match v with
  | some (.num q) => some (ratTrunc q)
  | _ => none

/-- Model of the `asFloat64` helper applied to `m[k]` (the `float64` arm is
the identity). -/
def asFloat64 (v : Option Json) : Option Rat :=
  match v with
  | some (.num q) => some q
  | _ => none

theorem ratTrunc_intCast (i : Int) : ratTrunc (i : Rat) = i := by
  unfold ratTrunc
  split <;> simp

theorem mdelete_of_not_mem (m : Jmap) (k : String) (h : ∀ kv ∈ m, kv.1 ≠ k) :
    mdelete m k = m := by
  rw [mdelete, List.filter_eq_self]
  intro kv hkv
  simpa using h kv hkv

/-! ## Server event parameters (part of the `realtime` package)

One constructor per `ServerEventParam*` struct.  Optional fields keep the
Go defaults: absent optional strings become `""`, absent optional objects
become `none`, fields of type `any` default to JSON null (Go `nil`). -/

/-- The in-memory parameter payload of a server event: a tagged union with
one shape per event kind, mirroring the 43 `ServerEventParam*` structs. -/
inductive EventParam where
  | ServerEventParamError (ptype peventId code message : String) (par : Json)
  | ServerEventParamSessionCreated (session : Jmap)
  | ServerEventParamSessionUpdated (session : Jmap)
  | ServerEventParamConversationItemAdded (previousItemId : Json) (item : Jmap)
  | ServerEventParamConversationItemDone (previousItemId : Json) (item : Jmap)
  | ServerEventParamConversationItemRetrieved (item : Jmap)
  | ServerEventParamConversationItemInputAudioTranscriptionCompleted
      (itemId : String) (contentIndex : Int) (transcript : String) (usage : Option Jmap)
  | ServerEventParamConversationItemInputAudioTranscriptionDelta
      (itemId : String) (contentIndex : Int) (delta obfuscation : String)
  | ServerEventParamConversationItemInputAudioTranscriptionSegment
      (itemId : String) (contentIndex : Int) (text segId speaker : String)
      (startTime endTime : Rat)
  | ServerEventParamConversationItemInputAudioTranscriptionFailed
      (itemId : String) (contentIndex : Int) (errInfo : Jmap)
  | ServerEventParamConversationItemTruncated (itemId : String) (contentIndex audioEndMs : Int)
  | ServerEventParamConversationItemDeleted (itemId : String)
  | ServerEventParamInputAudioBufferCommitted (previousItemId : Json) (itemId : String)
  | ServerEventParamInputAudioBufferCleared
  | ServerEventParamInputAudioBufferSpeechStarted (audioStartMs : Int) (itemId : String)
  | ServerEventParamInputAudioBufferSpeechStopped (audioEndMs : Int) (itemId : String)
  | ServerEventParamInputAudioBufferTimeoutTriggered
      (audioStartMs audioEndMs : Int) (itemId : String)
  | ServerEventParamOutputAudioBufferStarted (responseId : String)
  | ServerEventParamOutputAudioBufferStopped (responseId : String)
  | ServerEventParamOutputAudioBufferCleared (responseId : String)
  | ServerEventParamResponseCreated (response : Jmap)
  | ServerEventParamResponseDone (response : Jmap)
  | ServerEventParamResponseOutputItemAdded
      (responseId : String) (outputIndex : Int) (item : Jmap)
  | ServerEventParamResponseOutputItemDone
      (responseId : String) (outputIndex : Int) (item : Jmap)
  | ServerEventParamResponseContentPartAdded
      (responseId itemId : String) (outputIndex contentIndex : Int) (part : Jmap)
  | ServerEventParamResponseContentPartDone
      (responseId itemId : String) (outputIndex contentIndex : Int) (part : Jmap)
  | ServerEventParamResponseOutputTextDelta
      (responseId itemId : String) (outputIndex contentIndex : Int) (delta : String)
  | ServerEventParamResponseOutputTextDone
      (responseId itemId : String) (outputIndex contentIndex : Int) (text : String)
  | ServerEventParamResponseOutputAudioTranscriptDelta
      (responseId itemId : String) (outputIndex contentIndex : Int) (delta : String)
  | ServerEventParamResponseOutputAudioTranscriptDone
      (responseId itemId : String) (outputIndex contentIndex : Int) (transcript : String)
  | ServerEventParamResponseOutputAudioDelta
      (responseId itemId : String) (outputIndex contentIndex : Int) (delta : String)
  | ServerEventParamResponseOutputAudioDone
      (responseId itemId : String) (outputIndex contentIndex : Int)
  | ServerEventParamResponseFunctionCallArgumentsDelta
      (responseId itemId : String) (outputIndex : Int) (callId delta : String)
  | ServerEventParamResponseFunctionCallArgumentsDone
      (responseId itemId : String) (outputIndex : Int) (callId arguments : String)
  | ServerEventParamResponseMCPCallArgumentsDelta
      (responseId itemId : String) (outputIndex : Int) (delta : String)
  | ServerEventParamResponseMCPCallArgumentsDone
      (responseId itemId : String) (outputIndex : Int) (arguments : String)
  | ServerEventParamResponseMCPCallInProgress (outputIndex : Int) (itemId : String)
  | ServerEventParamResponseMCPCallCompleted (outputIndex : Int) (itemId : String)
  | ServerEventParamResponseMCPCallFailed (outputIndex : Int) (itemId : String)
  | ServerEventParamMCPListToolsInProgress (itemId : String)
  | ServerEventParamMCPListToolsCompleted (itemId : String)
  | ServerEventParamMCPListToolsFailed (itemId : String)
  | ServerEventParamRatelimitsUpdated (rateLimits : List Jmap)

/-- The wire kind tag (the `ServerEventType*` constant) that selects each
parameter shape in the decoder's type switch. -/
def paramType : EventParam → String
  | .ServerEventParamError .. => "error"
  | .ServerEventParamSessionCreated .. => "session.created"
  | .ServerEventParamSessionUpdated .. => "session.updated"
  | .ServerEventParamConversationItemAdded .. => "conversation.item.added"
  | .ServerEventParamConversationItemDone .. => "conversation.item.done"
  | .ServerEventParamConversationItemRetrieved .. => "conversation.item.retrieved"
  | .ServerEventParamConversationItemInputAudioTranscriptionCompleted .. =>
      "conversation.item.input_audio_transcription.completed"
  | .ServerEventParamConversationItemInputAudioTranscriptionDelta .. =>
      "conversation.item.input_audio_transcription.delta"
  | .ServerEventParamConversationItemInputAudioTranscriptionSegment .. =>
      "conversation.item.input_audio_transcription.segment"
  | .ServerEventParamConversationItemInputAudioTranscriptionFailed .. =>
      "conversation.item.input_audio_transcription.failed"
  | .ServerEventParamConversationItemTruncated .. => "conversation.item.truncated"
  | .ServerEventParamConversationItemDeleted .. => "conversation.item.deleted"
  | .ServerEventParamInputAudioBufferCommitted .. => "input_audio_buffer.committed"
  | .ServerEventParamInputAudioBufferCleared => "input_audio_buffer.cleared"
  | .ServerEventParamInputAudioBufferSpeechStarted .. => "input_audio_buffer.speech_started"
  | .ServerEventParamInputAudioBufferSpeechStopped .. => "input_audio_buffer.speech_stopped"
  | .ServerEventParamInputAudioBufferTimeoutTriggered .. => "input_audio_buffer.timeout_triggered"
  | .ServerEventParamOutputAudioBufferStarted .. => "output_audio_buffer.started"
  | .ServerEventParamOutputAudioBufferStopped .. => "output_audio_buffer.stopped"
  | .ServerEventParamOutputAudioBufferCleared .. => "output_audio_buffer.cleared"
  | .ServerEventParamResponseCreated .. => "response.created"
  | .ServerEventParamResponseDone .. => "response.done"
  | .ServerEventParamResponseOutputItemAdded .. => "response.output_item.added"
  | .ServerEventParamResponseOutputItemDone .. => "response.output_item.done"
  | .ServerEventParamResponseContentPartAdded .. => "response.content_part.added"
  | .ServerEventParamResponseContentPartDone .. => "response.content_part.done"
  | .ServerEventParamResponseOutputTextDelta .. => "response.output_text.delta"
  | .ServerEventParamResponseOutputTextDone .. => "response.output_text.done"
  | .ServerEventParamResponseOutputAudioTranscriptDelta .. =>
      "response.output_audio_transcript.delta"
  | .ServerEventParamResponseOutputAudioTranscriptDone .. =>
      "response.output_audio_transcript.done"
  | .ServerEventParamResponseOutputAudioDelta .. => "response.output_audio.delta"
  | .ServerEventParamResponseOutputAudioDone .. => "response.output_audio.done"
  | .ServerEventParamResponseFunctionCallArgumentsDelta .. =>
      "response.function_call_arguments.delta"
  | .ServerEventParamResponseFunctionCallArgumentsDone .. =>
      "response.function_call_arguments.done"
  | .ServerEventParamResponseMCPCallArgumentsDelta .. => "response.mcp_call_arguments.delta"
  | .ServerEventParamResponseMCPCallArgumentsDone .. => "response.mcp_call_arguments.done"
  | .ServerEventParamResponseMCPCallInProgress .. => "response.mcp_call.in_progress"
  | .ServerEventParamResponseMCPCallCompleted .. => "response.mcp_call.completed"
  | .ServerEventParamResponseMCPCallFailed .. => "response.mcp_call.failed"
  | .ServerEventParamMCPListToolsInProgress .. => "mcp_list_tools.in_progress"
  | .ServerEventParamMCPListToolsCompleted .. => "mcp_list_tools.completed"
  | .ServerEventParamMCPListToolsFailed .. => "mcp_list_tools.failed"
  | .ServerEventParamRatelimitsUpdated .. => "rate_limits.updated"

/-- The closed vocabulary of server event kinds (the constants of the
`ServerEventType*` block, in source order). -/
def serverEventTypes : List String :=
  ["error", "session.created", "session.updated", "conversation.item.added",
   "conversation.item.done", "conversation.item.retrieved",
   "conversation.item.input_audio_transcription.completed",
   "conversation.item.input_audio_transcription.delta",
   "conversation.item.input_audio_transcription.segment",
   "conversation.item.input_audio_transcription.failed",
   "conversation.item.truncated", "conversation.item.deleted",
   "input_audio_buffer.committed", "input_audio_buffer.cleared",
   "input_audio_buffer.speech_started", "input_audio_buffer.speech_stopped",
   "input_audio_buffer.timeout_triggered", "output_audio_buffer.started",
   "output_audio_buffer.stopped", "output_audio_buffer.cleared",
   "response.created", "response.done", "response.output_item.added",
   "response.output_item.done", "response.content_part.added",
   "response.content_part.done", "response.output_text.delta",
   "response.output_text.done", "response.output_audio_transcript.delta",
   "response.output_audio_transcript.done", "response.output_audio.delta",
   "response.output_audio.done", "response.function_call_arguments.delta",
   "response.function_call_arguments.done", "response.mcp_call_arguments.delta",
   "response.mcp_call_arguments.done", "response.mcp_call.in_progress",
   "response.mcp_call.completed", "response.mcp_call.failed",
   "mcp_list_tools.in_progress", "mcp_list_tools.completed",
   "mcp_list_tools.failed", "rate_limits.updated"]

/-- Model of the `Json()` method of every parameter shape: the wire map the
shape re-emits.  Matches part_009 field for field, including the nested
`error` sub-object of the error kind, the always-emitted `usage` (Go nil
maps marshal to JSON null) and the conditionally-emitted `obfuscation` and
`speaker` keys. -/
def paramJson : EventParam → Jmap
  | .ServerEventParamError ptype peventId code message par =>
      [("error", .obj [("type", .str ptype), ("event_id", .str peventId),
        ("code", .str code), ("message", .str message), ("param", par)])]
  | .ServerEventParamSessionCreated session => [("session", .obj session)]
  | .ServerEventParamSessionUpdated session => [("session", .obj session)]
  | .ServerEventParamConversationItemAdded previousItemId item =>
      [("previous_item_id", previousItemId), ("item", .obj item)]
  | .ServerEventParamConversationItemDone previousItemId item =>
      [("previous_item_id", previousItemId), ("item", .obj item)]
  | .ServerEventParamConversationItemRetrieved item => [("item", .obj item)]
  | .ServerEventParamConversationItemInputAudioTranscriptionCompleted
      itemId contentIndex transcript usage =>
      [("item_id", .str itemId), ("content_index", .num (contentIndex : Rat)),
       ("transcript", .str transcript),
       ("usage", match usage with | some o => .obj o | none => .null)]
  | .ServerEventParamConversationItemInputAudioTranscriptionDelta
      itemId contentIndex delta obfuscation =>
      let base : Jmap := [("item_id", .str itemId),
        ("content_index", .num (contentIndex : Rat)), ("delta", .str delta)]
      if obfuscation = "" then base else base ++ [("obfuscation", .str obfuscation)]
  | .ServerEventParamConversationItemInputAudioTranscriptionSegment
      itemId contentIndex text segId speaker startTime endTime =>
      let base : Jmap := [("item_id", .str itemId),
        ("content_index", .num (contentIndex : Rat)), ("text", .str text),
        ("id", .str segId), ("start", .num startTime), ("end", .num endTime)]
      if speaker = "" then base else base ++ [("speaker", .str speaker)]
  | .ServerEventParamConversationItemInputAudioTranscriptionFailed
      itemId contentIndex errInfo =>
      [("item_id", .str itemId), ("content_index", .num (contentIndex : Rat)),
       ("error", .obj errInfo)]
  | .ServerEventParamConversationItemTruncated itemId contentIndex audioEndMs =>
      [("item_id", .str itemId), ("content_index", .num (contentIndex : Rat)),
       ("audio_end_ms", .num (audioEndMs : Rat))]
  | .ServerEventParamConversationItemDeleted itemId => [("item_id", .str itemId)]
  | .ServerEventParamInputAudioBufferCommitted previousItemId itemId =>
      [("previous_item_id", previousItemId), ("item_id", .str itemId)]
  | .ServerEventParamInputAudioBufferCleared => []
  | .ServerEventParamInputAudioBufferSpeechStarted audioStartMs itemId =>
      [("audio_start_ms", .num (audioStartMs : Rat)), ("item_id", .str itemId)]
  | .ServerEventParamInputAudioBufferSpeechStopped audioEndMs itemId =>
      [("audio_end_ms", .num (audioEndMs : Rat)), ("item_id", .str itemId)]
  | .ServerEventParamInputAudioBufferTimeoutTriggered audioStartMs audioEndMs itemId =>
      [("audio_start_ms", .num (audioStartMs : Rat)),
       ("audio_end_ms", .num (audioEndMs : Rat)), ("item_id", .str itemId)]
  | .ServerEventParamOutputAudioBufferStarted responseId =>
      [("response_id", .str responseId)]
  | .ServerEventParamOutputAudioBufferStopped responseId =>
      [("response_id", .str responseId)]
  | .ServerEventParamOutputAudioBufferCleared responseId =>
      [("response_id", .str responseId)]
  | .ServerEventParamResponseCreated response => [("response", .obj response)]
  | .ServerEventParamResponseDone response => [("response", .obj response)]
  | .ServerEventParamResponseOutputItemAdded responseId outputIndex item =>
      [("response_id", .str responseId), ("output_index", .num (outputIndex : Rat)),
       ("item", .obj item)]
  | .ServerEventParamResponseOutputItemDone responseId outputIndex item =>
      [("response_id", .str responseId), ("output_index", .num (outputIndex : Rat)),
       ("item", .obj item)]
  | .ServerEventParamResponseContentPartAdded responseId itemId outputIndex contentIndex part =>
      [("response_id", .str responseId), ("item_id", .str itemId),
       ("output_index", .num (outputIndex : Rat)),
       ("content_index", .num (contentIndex : Rat)), ("part", .obj part)]
  | .ServerEventParamResponseContentPartDone responseId itemId outputIndex contentIndex part =>
      [("response_id", .str responseId), ("item_id", .str itemId),
       ("output_index", .num (outputIndex : Rat)),
       ("content_index", .num (contentIndex : Rat)), ("part", .obj part)]
  | .ServerEventParamResponseOutputTextDelta responseId itemId outputIndex contentIndex delta =>
      [("response_id", .str responseId), ("item_id", .str itemId),
       ("output_index", .num (outputIndex : Rat)),
       ("content_index", .num (contentIndex : Rat)), ("delta", .str delta)]
  | .ServerEventParamResponseOutputTextDone responseId itemId outputIndex contentIndex text =>
      [("response_id", .str responseId), ("item_id", .str itemId),
       ("output_index", .num (outputIndex : Rat)),
       ("content_index", .num (contentIndex : Rat)), ("text", .str text)]
  | .ServerEventParamResponseOutputAudioTranscriptDelta
      responseId itemId outputIndex contentIndex delta =>
      [("response_id", .str responseId), ("item_id", .str itemId),
       ("output_index", .num (outputIndex : Rat)),
       ("content_index", .num (contentIndex : Rat)), ("delta", .str delta)]
  | .ServerEventParamResponseOutputAudioTranscriptDone
      responseId itemId outputIndex contentIndex transcript =>
      [("response_id", .str responseId), ("item_id", .str itemId),
       ("output_index", .num (outputIndex : Rat)),
       ("content_index", .num (contentIndex : Rat)), ("transcript", .str transcript)]
  | .ServerEventParamResponseOutputAudioDelta responseId itemId outputIndex contentIndex delta =>
      [("response_id", .str responseId), ("item_id", .str itemId),
       ("output_index", .num (outputIndex : Rat)),
       ("content_index", .num (contentIndex : Rat)), ("delta", .str delta)]
  | .ServerEventParamResponseOutputAudioDone responseId itemId outputIndex contentIndex =>
      [("response_id", .str responseId), ("item_id", .str itemId),
       ("output_index", .num (outputIndex : Rat)),
       ("content_index", .num (contentIndex : Rat))]
  | .ServerEventParamResponseFunctionCallArgumentsDelta
      responseId itemId outputIndex callId delta =>
      [("response_id", .str responseId), ("item_id", .str itemId),
       ("output_index", .num (outputIndex : Rat)), ("call_id", .str callId),
       ("delta", .str delta)]
  | .ServerEventParamResponseFunctionCallArgumentsDone
      responseId itemId outputIndex callId arguments =>
      [("response_id", .str responseId), ("item_id", .str itemId),
       ("output_index", .num (outputIndex : Rat)), ("call_id", .str callId),
       ("arguments", .str arguments)]
  | .ServerEventParamResponseMCPCallArgumentsDelta responseId itemId outputIndex delta =>
      [("response_id", .str responseId), ("item_id", .str itemId),
       ("output_index", .num (outputIndex : Rat)), ("delta", .str delta)]
  | .ServerEventParamResponseMCPCallArgumentsDone responseId itemId outputIndex arguments =>
      [("response_id", .str responseId), ("item_id", .str itemId),
       ("output_index", .num (outputIndex : Rat)), ("arguments", .str arguments)]
  | .ServerEventParamResponseMCPCallInProgress outputIndex itemId =>
      [("output_index", .num (outputIndex : Rat)), ("item_id", .str itemId)]
  | .ServerEventParamResponseMCPCallCompleted outputIndex itemId =>
      [("output_index", .num (outputIndex : Rat)), ("item_id", .str itemId)]
  | .ServerEventParamResponseMCPCallFailed outputIndex itemId =>
      [("output_index", .num (outputIndex : Rat)), ("item_id", .str itemId)]
  | .ServerEventParamMCPListToolsInProgress itemId => [("item_id", .str itemId)]
  | .ServerEventParamMCPListToolsCompleted itemId => [("item_id", .str itemId)]
  | .ServerEventParamMCPListToolsFailed itemId => [("item_id", .str itemId)]
  | .ServerEventParamRatelimitsUpdated rateLimits =>
      [("rate_limits", .arr (rateLimits.map .obj))]

/-! ## Per-kind `New` extraction contracts

One definition per `(*ServerEventParam...).New(map[string]any) error`,
mirroring the field order and the exact error strings of the source. -/

/-- Contract of `(*ServerEventParamError).New`: first the official nested
shape (an `error` sub-object), then the flattened fallback. -/
def serverEventParamErrorNew (m : Jmap) : Except String EventParam :=
  match getObj m "error" with
  | some errObj =>
    match getStr errObj "type" with
    | none => .error "missing error.type"
    | some t =>
      match getStr errObj "code" with
      | none => .error "missing error.code"
      | some c =>
        match getStr errObj "message" with
        | none => .error "missing error.message"
        | some msg =>
          .ok (.ServerEventParamError t ((getStr errObj "event_id").getD "") c msg
            ((mlookup errObj "param").getD .null))
  | none =>
    match getStr m "type" with
    | none => .error "missing type"
    | some t =>
      match getStr m "code" with
      | none => .error "missing code"
      | some c =>
        match getStr m "message" with
        | none => .error "missing message"
        | some msg =>
          .ok (.ServerEventParamError t ((getStr m "event_id").getD "") c msg
            ((mlookup m "param").getD .null))

def serverEventParamSessionCreatedNew (m : Jmap) : Except String EventParam :=
  match getObj m "session" with
  | none => .error "missing session"
  | some s => .ok (.ServerEventParamSessionCreated s)

def serverEventParamSessionUpdatedNew (m : Jmap) : Except String EventParam :=
  match getObj m "session" with
  | none => .error "missing session"
  | some s => .ok (.ServerEventParamSessionUpdated s)

def serverEventParamConversationItemAddedNew (m : Jmap) : Except String EventParam :=
  match getObj m "item" with
  | none => .error "missing item"
  | some item => .ok (.ServerEventParamConversationItemAdded
      ((mlookup m "previous_item_id").getD .null) item)

def serverEventParamConversationItemDoneNew (m : Jmap) : Except String EventParam :=
  match getObj m "item" with
  | none => .error "missing item"
  | some item => .ok (.ServerEventParamConversationItemDone
      ((mlookup m "previous_item_id").getD .null) item)

def serverEventParamConversationItemRetrievedNew (m : Jmap) : Except String EventParam :=
  match getObj m "item" with
  | none => .error "missing item"
  | some item => .ok (.ServerEventParamConversationItemRetrieved item)

def serverEventParamConversationItemInputAudioTranscriptionCompletedNew
    (m : Jmap) : Except String EventParam :=
  match getStr m "item_id" with
  | none => .error "missing item_id"
  | some itemId =>
    match asInt (mlookup m "content_index") with
    | none => .error "missing content_index"
    | some ci =>
      match getStr m "transcript" with
      | none => .error "missing transcript"
      | some transcript =>
        .ok (.ServerEventParamConversationItemInputAudioTranscriptionCompleted
          itemId ci transcript (getObj m "usage"))

def serverEventParamConversationItemInputAudioTranscriptionDeltaNew
    (m : Jmap) : Except String EventParam :=
  match getStr m "item_id" with
  | none => .error "missing item_id"
  | some itemId =>
    match asInt (mlookup m "content_index") with
    | none => .error "missing content_index"
    | some ci =>
      match getStr m "delta" with
      | none => .error "missing delta"
      | some delta =>
        .ok (.ServerEventParamConversationItemInputAudioTranscriptionDelta
          itemId ci delta ((getStr m "obfuscation").getD ""))

def serverEventParamConversationItemInputAudioTranscriptionSegmentNew
    (m : Jmap) : Except String EventParam :=
  match getStr m "item_id" with
  | none => .error "missing item_id"
  | some itemId =>
    match asInt (mlookup m "content_index") with
    | none => .error "missing content_index"
    | some ci =>
      match getStr m "text" with
      | none => .error "missing text"
      | some text =>
        match getStr m "id" with
        | none => .error "missing id"
        | some segId =>
          match asFloat64 (mlookup m "start") with
          | none => .error "missing start"
          | some startTime =>
            match asFloat64 (mlookup m "end") with
            | none => .error "missing end"
            | some endTime =>
              .ok (.ServerEventParamConversationItemInputAudioTranscriptionSegment
                itemId ci text segId ((getStr m "speaker").getD "") startTime endTime)

def serverEventParamConversationItemInputAudioTranscriptionFailedNew
    (m : Jmap) : Except String EventParam :=
  match getStr m "item_id" with
  | none => .error "missing item_id"
  | some itemId =>
    match asInt (mlookup m "content_index") with
    | none => .error "missing content_index"
    | some ci =>
      match getObj m "error" with
      | none => .error "missing error"
      | some errInfo =>
        .ok (.ServerEventParamConversationItemInputAudioTranscriptionFailed itemId ci errInfo)

def serverEventParamConversationItemTruncatedNew (m : Jmap) : Except String EventParam :=
  match getStr m "item_id" with
  | none => .error "missing item_id"
  | some itemId =>
    match asInt (mlookup m "content_index") with
    | none => .error "missing content_index"
    | some ci =>
      match asInt (mlookup m "audio_end_ms") with
      | none => .error "missing audio_end_ms"
      | some audioEndMs =>
        .ok (.ServerEventParamConversationItemTruncated itemId ci audioEndMs)

def serverEventParamConversationItemDeletedNew (m : Jmap) : Except String EventParam :=
  match getStr m "item_id" with
  | none => .error "missing item_id"
  | some itemId => .ok (.ServerEventParamConversationItemDeleted itemId)

def serverEventParamInputAudioBufferCommittedNew (m : Jmap) : Except String EventParam :=
  match getStr m "item_id" with
  | none => .error "missing item_id"
  | some itemId => .ok (.ServerEventParamInputAudioBufferCommitted
      ((mlookup m "previous_item_id").getD .null) itemId)

/-- Contract of `(*ServerEventParamInputAudioBufferCleared).New`: accepts
any map, including the empty one, and reads no field. -/
def serverEventParamInputAudioBufferClearedNew (_ : Jmap) : Except String EventParam :=
  .ok .ServerEventParamInputAudioBufferCleared

def serverEventParamInputAudioBufferSpeechStartedNew (m : Jmap) : Except String EventParam :=
  match asInt (mlookup m "audio_start_ms") with
  | none => .error "missing audio_start_ms"
  | some audioStartMs =>
    match getStr m "item_id" with
    | none => .error "missing item_id"
    | some itemId =>
      .ok (.ServerEventParamInputAudioBufferSpeechStarted audioStartMs itemId)

def serverEventParamInputAudioBufferSpeechStoppedNew (m : Jmap) : Except String EventParam :=
  match asInt (mlookup m "audio_end_ms") with
  | none => .error "missing audio_end_ms"
  | some audioEndMs =>
    match getStr m "item_id" with
    | none => .error "missing item_id"
    | some itemId =>
      .ok (.ServerEventParamInputAudioBufferSpeechStopped audioEndMs itemId)

def serverEventParamInputAudioBufferTimeoutTriggeredNew (m : Jmap) : Except String EventParam :=
  match asInt (mlookup m "audio_start_ms") with
  | none => .error "missing audio_start_ms"
  | some audioStartMs =>
    match asInt (mlookup m "audio_end_ms") with
    | none => .error "missing audio_end_ms"
    | some audioEndMs =>
      match getStr m "item_id" with
      | none => .error "missing item_id"
      | some itemId =>
        .ok (.ServerEventParamInputAudioBufferTimeoutTriggered audioStartMs audioEndMs itemId)

def serverEventParamOutputAudioBufferStartedNew (m : Jmap) : Except String EventParam :=
  match getStr m "response_id" with
  | none => .error "missing response_id"
  | some responseId => .ok (.ServerEventParamOutputAudioBufferStarted responseId)

def serverEventParamOutputAudioBufferStoppedNew (m : Jmap) : Except String EventParam :=
  match getStr m "response_id" with
  | none => .error "missing response_id"
  | some responseId => .ok (.ServerEventParamOutputAudioBufferStopped responseId)

def serverEventParamOutputAudioBufferClearedNew (m : Jmap) : Except String EventParam :=
  match getStr m "response_id" with
  | none => .error "missing response_id"
  | some responseId => .ok (.ServerEventParamOutputAudioBufferCleared responseId)

def serverEventParamResponseCreatedNew (m : Jmap) : Except String EventParam :=
  match getObj m "response" with
  | none => .error "missing response"
  | some response => .ok (.ServerEventParamResponseCreated response)

def serverEventParamResponseDoneNew (m : Jmap) : Except String EventParam :=
  match getObj m "response" with
  | none => .error "missing response"
  | some response => .ok (.ServerEventParamResponseDone response)

def serverEventParamResponseOutputItemAddedNew (m : Jmap) : Except String EventParam :=
  match getStr m "response_id" with
  | none => .error "missing response_id"
  | some responseId =>
    match asInt (mlookup m "output_index") with
    | none => .error "missing output_index"
    | some oi =>
      match getObj m "item" with
      | none => .error "missing item"
      | some item => .ok (.ServerEventParamResponseOutputItemAdded responseId oi item)

def serverEventParamResponseOutputItemDoneNew (m : Jmap) : Except String EventParam :=
  match getStr m "response_id" with
  | none => .error "missing response_id"
  | some responseId =>
    match asInt (mlookup m "output_index") with
    | none => .error "missing output_index"
    | some oi =>
      match getObj m "item" with
      | none => .error "missing item"
      | some item => .ok (.ServerEventParamResponseOutputItemDone responseId oi item)

def serverEventParamResponseContentPartAddedNew (m : Jmap) : Except String EventParam :=
  match getStr m "response_id" with
  | none => .error "missing response_id"
  | some responseId =>
    match getStr m "item_id" with
    | none => .error "missing item_id"
    | some itemId =>
      match asInt (mlookup m "output_index") with
      | none => .error "missing output_index"
      | some oi =>
        match asInt (mlookup m "content_index") with
        | none => .error "missing content_index"
        | some ci =>
          match getObj m "part" with
          | none => .error "missing part"
          | some part =>
            .ok (.ServerEventParamResponseContentPartAdded responseId itemId oi ci part)

def serverEventParamResponseContentPartDoneNew (m : Jmap) : Except String EventParam :=
  match getStr m "response_id" with
  | none => .error "missing response_id"
  | some responseId =>
    match getStr m "item_id" with
    | none => .error "missing item_id"
    | some itemId =>
      match asInt (mlookup m "output_index") with
      | none => .error "missing output_index"
      | some oi =>
        match asInt (mlookup m "content_index") with
        | none => .error "missing content_index"
        | some ci =>
          match getObj m "part" with
          | none => .error "missing part"
          | some part =>
            .ok (.ServerEventParamResponseContentPartDone responseId itemId oi ci part)

def serverEventParamResponseOutputTextDeltaNew (m : Jmap) : Except String EventParam :=
  match getStr m "response_id" with
  | none => .error "missing response_id"
  | some responseId =>
    match getStr m "item_id" with
    | none => .error "missing item_id"
    | some itemId =>
      match asInt (mlookup m "output_index") with
      | none => .error "missing output_index"
      | some oi =>
        match asInt (mlookup m "content_index") with
        | none => .error "missing content_index"
        | some ci =>
          match getStr m "delta" with
          | none => .error "missing delta"
          | some delta =>
            .ok (.ServerEventParamResponseOutputTextDelta responseId itemId oi ci delta)

def serverEventParamResponseOutputTextDoneNew (m : Jmap) : Except String EventParam :=
  match getStr m "response_id" with
  | none => .error "missing response_id"
  | some responseId =>
    match getStr m "item_id" with
    | none => .error "missing item_id"
    | some itemId =>
      match asInt (mlookup m "output_index") with
      | none => .error "missing output_index"
      | some oi =>
        match asInt (mlookup m "content_index") with
        | none => .error "missing content_index"
        | some ci =>
          match getStr m "text" with
          | none => .error "missing text"
          | some text =>
            .ok (.ServerEventParamResponseOutputTextDone responseId itemId oi ci text)

def serverEventParamResponseOutputAudioTranscriptDeltaNew (m : Jmap) : Except String EventParam :=
  match getStr m "response_id" with
  | none => .error "missing response_id"
  | some responseId =>
    match getStr m "item_id" with
    | none => .error "missing item_id"
    | some itemId =>
      match asInt (mlookup m "output_index") with
      | none => .error "missing output_index"
      | some oi =>
        match asInt (mlookup m "content_index") with
        | none => .error "missing content_index"
        | some ci =>
          match getStr m "delta" with
          | none => .error "missing delta"
          | some delta =>
            .ok (.ServerEventParamResponseOutputAudioTranscriptDelta responseId itemId oi ci delta)

def serverEventParamResponseOutputAudioTranscriptDoneNew (m : Jmap) : Except String EventParam :=
  match getStr m "response_id" with
  | none => .error "missing response_id"
  | some responseId =>
    match getStr m "item_id" with
    | none => .error "missing item_id"
    | some itemId =>
      match asInt (mlookup m "output_index") with
      | none => .error "missing output_index"
      | some oi =>
        match asInt (mlookup m "content_index") with
        | none => .error "missing content_index"
        | some ci =>
          match getStr m "transcript" with
          | none => .error "missing transcript"
          | some transcript =>
            .ok (.ServerEventParamResponseOutputAudioTranscriptDone responseId itemId oi ci
              transcript)

def serverEventParamResponseOutputAudioDeltaNew (m : Jmap) : Except String EventParam :=
  match getStr m "response_id" with
  | none => .error "missing response_id"
  | some responseId =>
    match getStr m "item_id" with
    | none => .error "missing item_id"
    | some itemId =>
      match asInt (mlookup m "output_index") with
      | none => .error "missing output_index"
      | some oi =>
        match asInt (mlookup m "content_index") with
        | none => .error "missing content_index"
        | some ci =>
          match getStr m "delta" with
          | none => .error "missing delta"
          | some delta =>
            .ok (.ServerEventParamResponseOutputAudioDelta responseId itemId oi ci delta)

def serverEventParamResponseOutputAudioDoneNew (m : Jmap) : Except String EventParam :=
  match getStr m "response_id" with
  | none => .error "missing response_id"
  | some responseId =>
    match getStr m "item_id" with
    | none => .error "missing item_id"
    | some itemId =>
      match asInt (mlookup m "output_index") with
      | none => .error "missing output_index"
      | some oi =>
        match asInt (mlookup m "content_index") with
        | none => .error "missing content_index"
        | some ci =>
          .ok (.ServerEventParamResponseOutputAudioDone responseId itemId oi ci)

def serverEventParamResponseFunctionCallArgumentsDeltaNew (m : Jmap) : Except String EventParam :=
  match getStr m "response_id" with
  | none => .error "missing response_id"
  | some responseId =>
    match getStr m "item_id" with
    | none => .error "missing item_id"
    | some itemId =>
      match asInt (mlookup m "output_index") with
      | none => .error "missing output_index"
      | some oi =>
        match getStr m "call_id" with
        | none => .error "missing call_id"
        | some callId =>
          match getStr m "delta" with
          | none => .error "missing delta"
          | some delta =>
            .ok (.ServerEventParamResponseFunctionCallArgumentsDelta responseId itemId oi
              callId delta)

def serverEventParamResponseFunctionCallArgumentsDoneNew (m : Jmap) : Except String EventParam :=
  match getStr m "response_id" with
  | none => .error "missing response_id"
  | some responseId =>
    match getStr m "item_id" with
    | none => .error "missing item_id"
    | some itemId =>
      match asInt (mlookup m "output_index") with
      | none => .error "missing output_index"
      | some oi =>
        match getStr m "call_id" with
        | none => .error "missing call_id"
        | some callId =>
          match getStr m "arguments" with
          | none => .error "missing arguments"
          | some arguments =>
            .ok (.ServerEventParamResponseFunctionCallArgumentsDone responseId itemId oi
              callId arguments)

def serverEventParamResponseMCPCallArgumentsDeltaNew (m : Jmap) : Except String EventParam :=
  match getStr m "response_id" with
  | none => .error "missing response_id"
  | some responseId =>
    match getStr m "item_id" with
    | none => .error "missing item_id"
    | some itemId =>
      match asInt (mlookup m "output_index") with
      | none => .error "missing output_index"
      | some oi =>
        match getStr m "delta" with
        | none => .error "missing delta"
        | some delta =>
          .ok (.ServerEventParamResponseMCPCallArgumentsDelta responseId itemId oi delta)

def serverEventParamResponseMCPCallArgumentsDoneNew (m : Jmap) : Except String EventParam :=
  match getStr m "response_id" with
  | none => .error "missing response_id"
  | some responseId =>
    match getStr m "item_id" with
    | none => .error "missing item_id"
    | some itemId =>
      match asInt (mlookup m "output_index") with
      | none => .error "missing output_index"
      | some oi =>
        match getStr m "arguments" with
        | none => .error "missing arguments"
        | some arguments =>
          .ok (.ServerEventParamResponseMCPCallArgumentsDone responseId itemId oi arguments)

def serverEventParamResponseMCPCallInProgressNew (m : Jmap) : Except String EventParam :=
  match asInt (mlookup m "output_index") with
  | none => .error "missing output_index"
  | some oi =>
    match getStr m "item_id" with
    | none => .error "missing item_id"
    | some itemId => .ok (.ServerEventParamResponseMCPCallInProgress oi itemId)

def serverEventParamResponseMCPCallCompletedNew (m : Jmap) : Except String EventParam :=
  match asInt (mlookup m "output_index") with
  | none => .error "missing output_index"
  | some oi =>
    match getStr m "item_id" with
    | none => .error "missing item_id"
    | some itemId => .ok (.ServerEventParamResponseMCPCallCompleted oi itemId)

def serverEventParamResponseMCPCallFailedNew (m : Jmap) : Except String EventParam :=
  match asInt (mlookup m "output_index") with
  | none => .error "missing output_index"
  | some oi =>
    match getStr m "item_id" with
    | none => .error "missing item_id"
    | some itemId => .ok (.ServerEventParamResponseMCPCallFailed oi itemId)

def serverEventParamMCPListToolsInProgressNew (m : Jmap) : Except String EventParam :=
  match getStr m "item_id" with
  | none => .error "missing item_id"
  | some itemId => .ok (.ServerEventParamMCPListToolsInProgress itemId)

def serverEventParamMCPListToolsCompletedNew (m : Jmap) : Except String EventParam :=
  match getStr m "item_id" with
  | none => .error "missing item_id"
  | some itemId => .ok (.ServerEventParamMCPListToolsCompleted itemId)

def serverEventParamMCPListToolsFailedNew (m : Jmap) : Except String EventParam :=
  match getStr m "item_id" with
  | none => .error "missing item_id"
  | some itemId => .ok (.ServerEventParamMCPListToolsFailed itemId)

/-- Element check of the `[]any` arm of
`(*ServerEventParamRatelimitsUpdated).New`: every element must itself be a
map. -/
def ratelimitElems : List Json → Except String (List Jmap)
  | [] => .ok []
  | .obj o :: rest => (ratelimitElems rest).map (fun tail => o :: tail)
  | _ :: _ => .error "invalid element in rate_limits"

def serverEventParamRatelimitsUpdatedNew (m : Jmap) : Except String EventParam :=
  match mlookup m "rate_limits" with
  | none => .error "missing rate_limits"
  | some (.arr xs) => (ratelimitElems xs).map .ServerEventParamRatelimitsUpdated
  | some _ => .error "invalid rate_limits"

/-- The decoder's type switch (`switch e.Type` in `UnmarshalJSON`): selects
the parameter contract for a known kind, and yields the explicit
`unknown event type` error for a kind outside the closed vocabulary. -/
def paramNew (t : String) (m : Jmap) : Except String EventParam :=
  if t = "error" then serverEventParamErrorNew m
  else if t = "session.created" then serverEventParamSessionCreatedNew m
  else if t = "session.updated" then serverEventParamSessionUpdatedNew m
  else if t = "conversation.item.added" then serverEventParamConversationItemAddedNew m
  else if t = "conversation.item.done" then serverEventParamConversationItemDoneNew m
  else if t = "conversation.item.retrieved" then serverEventParamConversationItemRetrievedNew m
  else if t = "conversation.item.input_audio_transcription.completed" then
    serverEventParamConversationItemInputAudioTranscriptionCompletedNew m
  else if t = "conversation.item.input_audio_transcription.delta" then
    serverEventParamConversationItemInputAudioTranscriptionDeltaNew m
  else if t = "conversation.item.input_audio_transcription.segment" then
    serverEventParamConversationItemInputAudioTranscriptionSegmentNew m
  else if t = "conversation.item.input_audio_transcription.failed" then
    serverEventParamConversationItemInputAudioTranscriptionFailedNew m
  else if t = "conversation.item.truncated" then serverEventParamConversationItemTruncatedNew m
  else if t = "conversation.item.deleted" then serverEventParamConversationItemDeletedNew m
  else if t = "input_audio_buffer.committed" then serverEventParamInputAudioBufferCommittedNew m
  else if t = "input_audio_buffer.cleared" then serverEventParamInputAudioBufferClearedNew m
  else if t = "input_audio_buffer.speech_started" then
    serverEventParamInputAudioBufferSpeechStartedNew m
  else if t = "input_audio_buffer.speech_stopped" then
    serverEventParamInputAudioBufferSpeechStoppedNew m
  else if t = "input_audio_buffer.timeout_triggered" then
    serverEventParamInputAudioBufferTimeoutTriggeredNew m
  else if t = "output_audio_buffer.started" then serverEventParamOutputAudioBufferStartedNew m
  else if t = "output_audio_buffer.stopped" then serverEventParamOutputAudioBufferStoppedNew m
  else if t = "output_audio_buffer.cleared" then serverEventParamOutputAudioBufferClearedNew m
  else if t = "response.created" then serverEventParamResponseCreatedNew m
  else if t = "response.done" then serverEventParamResponseDoneNew m
  else if t = "response.output_item.added" then serverEventParamResponseOutputItemAddedNew m
  else if t = "response.output_item.done" then serverEventParamResponseOutputItemDoneNew m
  else if t = "response.content_part.added" then serverEventParamResponseContentPartAddedNew m
  else if t = "response.content_part.done" then serverEventParamResponseContentPartDoneNew m
  else if t = "response.output_text.delta" then serverEventParamResponseOutputTextDeltaNew m
  else if t = "response.output_text.done" then serverEventParamResponseOutputTextDoneNew m
  else if t = "response.output_audio_transcript.delta" then
    serverEventParamResponseOutputAudioTranscriptDeltaNew m
  else if t = "response.output_audio_transcript.done" then
    serverEventParamResponseOutputAudioTranscriptDoneNew m
  else if t = "response.output_audio.delta" then serverEventParamResponseOutputAudioDeltaNew m
  else if t = "response.output_audio.done" then serverEventParamResponseOutputAudioDoneNew m
  else if t = "response.function_call_arguments.delta" then
    serverEventParamResponseFunctionCallArgumentsDeltaNew m
  else if t = "response.function_call_arguments.done" then
    serverEventParamResponseFunctionCallArgumentsDoneNew m
  else if t = "response.mcp_call_arguments.delta" then
    serverEventParamResponseMCPCallArgumentsDeltaNew m
  else if t = "response.mcp_call_arguments.done" then
    serverEventParamResponseMCPCallArgumentsDoneNew m
  else if t = "response.mcp_call.in_progress" then serverEventParamResponseMCPCallInProgressNew m
  else if t = "response.mcp_call.completed" then serverEventParamResponseMCPCallCompletedNew m
  else if t = "response.mcp_call.failed" then serverEventParamResponseMCPCallFailedNew m
  else if t = "mcp_list_tools.in_progress" then serverEventParamMCPListToolsInProgressNew m
  else if t = "mcp_list_tools.completed" then serverEventParamMCPListToolsCompletedNew m
  else if t = "mcp_list_tools.failed" then serverEventParamMCPListToolsFailedNew m
  else if t = "rate_limits.updated" then serverEventParamRatelimitsUpdatedNew m
  else .error ("unknown event type: " ++ t)

/-- Model of the `ServerEvent` struct: identifier, kind and decoded
parameter payload. -/
structure ServerEvent where
  eventId : String
  type : String
  param : EventParam

/-- Model of `(*ServerEvent).UnmarshalJSON` after `sonic.Unmarshal` has
produced the raw map: extract and delete `event_id` and `type` (both
required strings), reject an otherwise-empty map with `missing param`,
then run the kind's extraction contract on the remaining keys. -/
def unmarshalServerEventMap (raw : Jmap) : Except String ServerEvent :=
  match getStr raw "event_id" with
  | none => .error "missing event_id"
  | some eid =>
    let raw1 := mdelete raw "event_id"
    match getStr raw1 "type" with
    | none => .error "missing type"
    | some t =>
      match mdelete raw1 "type" with
      | [] => .error "missing param"
      | raw2 => (paramNew t raw2).map (fun p => ⟨eid, t, p⟩)

/-- Model of `(*ServerEvent).MarshalJSON` up to the final `sonic.Marshal`:
reject an empty identifier or kind, then emit the parameter's `Json()` map
with `event_id` and `type` set on top.  (A nil `Param` cannot be
represented, since `EventParam` is a non-nullable sum.) -/
def marshalServerEventMap (e : ServerEvent) : Except String Jmap :=
  if e.eventId = "" then .error "EventId is empty"
  else if e.type = "" then .error "Type is empty"
  else .ok (minsert (minsert (paramJson e.param) "event_id" (.str e.eventId))
    "type" (.str e.type))

/-! ## Transcript turn-taking state machine (agents package, `CLIState`) -/

/-- Model of `agents.CLIState`: the two accumulating per-speaker buffers
and the shared turn flag (`0` for the assistant/coach, `1` for the user),
a Go `int`. -/
structure CLIState where
  userTrans : String
  coachTrans : String
  turn : Int

/-- The seed label of the user's buffer. -/
def userLabel : String := "🗣️ User  - "

/-- The seed label of the coach's (remote party's) buffer. -/
def coachLabel : String := "🧑 Coach - "

/-- Model of `agents.NewCLIState`: both buffers seeded with their labels,
the assistant's turn active. -/
def NewCLIState : CLIState :=
  ⟨userLabel, coachLabel, 0⟩

/-- Model of `(*CLIState).PipeEvent`: the string the CLI should print for
this event (possibly empty) and the updated state.  The two delta cases
read the payload through a Go type assertion that panics when the
parameter does not match the kind tag; that is modelled as `none`.  Event
kinds outside the four transcript kinds fall through and return the empty
string with the state unchanged. -/
def pipeEvent (s : CLIState) (e : ServerEvent) : Option (String × CLIState) :=
  if e.type = "conversation.item.input_audio_transcription.delta" then
    match e.param with
    | .ServerEventParamConversationItemInputAudioTranscriptionDelta _ _ delta _ =>
      if s.turn = 1 then
        if s.userTrans = "" then
          some (delta, s)
        else
          some (s.userTrans ++ delta, { s with userTrans := "" })
      else
        some ("", { s with userTrans := s.userTrans ++ delta })
    | _ => none
  else if e.type = "response.output_audio_transcript.delta" then
    match e.param with
    | .ServerEventParamResponseOutputAudioTranscriptDelta _ _ _ _ delta =>
      if s.turn = 0 then
        if s.coachTrans = "" then
          some (delta, s)
        else
          some (s.coachTrans ++ delta, { s with coachTrans := "" })
      else
        some ("", { s with coachTrans := s.coachTrans ++ delta })
    | _ => none
  else if e.type = "conversation.item.input_audio_transcription.completed" then
    if s.turn = 1 then
      some (s.userTrans ++ "\n\n", { s with userTrans := userLabel, turn := 0 })
    else
      some ("", { s with userTrans := userLabel })
  else if e.type = "response.output_audio_transcript.done" then
    if s.turn = 0 then
      some (s.coachTrans ++ "\n\n", { s with coachTrans := coachLabel, turn := 1 })
    else
      some ("", { s with coachTrans := coachLabel })
  else
    some ("", s)

/-- Folds `pipeEvent` over a list of events, collecting every returned
string (the CLI prints the non-empty ones). -/
def pipeTrace (s : CLIState) : List ServerEvent → Option (List String × CLIState)
  | [] => some ([], s)
  | e :: rest =>
    match pipeEvent s e with
    | none => none
    | some (out, s') =>
      match pipeTrace s' rest with
      | none => none
      | some (outs, fin) => some (out :: outs, fin)

/-! ## Session lifecycle controller (`Client`, part_006)

The second (context-carrying) version of the `Client` is modelled.  The
`context.Context` is reduced to its observable trait here: whether it has
been cancelled.  Ghost counters record how often the transport was torn
down (`pc.Close()`) and how often the `connected` channel was closed. -/

/-- Observable state of a `Client` for the close/lifecycle claims.
`pcCloseCount` is a ghost counter of `pc.Close()` calls (transport
teardowns). -/
structure GoClient where
  pcPresent : Bool
  pcCloseCount : Nat
  cancelPresent : Bool
  ctxDone : Bool
  running : Bool

/-- A client as `NewClient` hands it out: live peer connection, live
cancel function, context not yet cancelled. -/
def newGoClient : GoClient :=
  ⟨true, 0, true, false, false⟩

/-- Model of `(*Client).respectCtx`: an error exactly when the client's
context is already cancelled (`ctx.Err()` is `context.Canceled`). -/
def respectCtx (c : GoClient) : Except String Unit :=
  if c.ctxDone then .error "context canceled" else .ok ()

/-- Model of `(*Client).Close`: bail out (with a wrapped `respectCtx`
error) if the context is already cancelled; otherwise close and nil the
peer connection, cancel and nil the cancel function, and clear `running`. -/
def clientClose (c : GoClient) : Except String Unit × GoClient :=
  match respectCtx c with
  | .error e => (.error ("respecting client context: " ++ e), c)
  | .ok _ =>
    let c1 := if c.pcPresent then
        { c with pcCloseCount := c.pcCloseCount + 1, pcPresent := false }
      else c
    let c2 := if c1.cancelPresent then
        { c1 with ctxDone := true, cancelPresent := false }
      else c1
    (.ok (), { c2 with running := false })

/-- The `webrtc.PeerConnectionState` values. -/
inductive PCState where
  | unknown : PCState
  | new : PCState
  | connecting : PCState
  | connected : PCState
  | disconnected : PCState
  | failed : PCState
  | closed : PCState
deriving DecidableEq

/-- A state that completes a pending connect attempt (the claim's
"terminal notification"). -/
def PCState.isTerminal : PCState → Bool
  | .connected => true
  | .disconnected => true
  | .failed => true
  | .closed => true
  | _ => false

/-- Observable state of the `OnConnectionStateChange` handler registered in
`NewClient`: the captured `connectedGotClosed` flag, a ghost counter of
`close(connected)` executions, the context flag and the tracked state. -/
structure ConnWatch where
  gotClosed : Bool
  closeCount : Nat
  ctxDone : Bool
  state : PCState

/-- Handler state right after `NewClient`: channel open, nothing closed,
context live. -/
def connWatchInit : ConnWatch :=
  ⟨false, 0, false, .unknown⟩

/-- Model of the `OnConnectionStateChange` callback of `NewClient`
(part_006): return early if the context is cancelled; record the new
state; on `Connected` close the `connected` channel once (guarded by
`connectedGotClosed`); on `Disconnected`/`Failed`/`Closed` close the
channel once if still open, then cancel the context. -/
def onConnectionStateChange (h : ConnWatch) (s : PCState) : ConnWatch :=
  if h.ctxDone then h
  else
    let h1 := { h with state := s }
    match s with
    | .connected =>
      if !h1.gotClosed then { h1 with gotClosed := true, closeCount := h1.closeCount + 1 }
      else h1
    | .disconnected =>
      let h2 := if !h1.gotClosed then
          { h1 with gotClosed := true, closeCount := h1.closeCount + 1 }
        else h1
      { h2 with ctxDone := true }
    | .failed =>
      let h2 := if !h1.gotClosed then
          { h1 with gotClosed := true, closeCount := h1.closeCount + 1 }
        else h1
      { h2 with ctxDone := true }
    | .closed =>
      let h2 := if !h1.gotClosed then
          { h1 with gotClosed := true, closeCount := h1.closeCount + 1 }
        else h1
      { h2 with ctxDone := true }
    | _ => h1

/-- Folding a whole sequence of connection-state notifications through the
handler. -/
def runConnWatch (l : List PCState) : ConnWatch :=
  l.foldl onConnectionStateChange connWatchInit

/-! ## Connect wait with timeout (the older `Client.Start`, part_006)

The watcher goroutine polls `pc.ConnectionState()` on a 100 ms ticker and
the caller selects between the `connected` channel and a 10-second
`time.After`.  Wall-clock time is abstracted into tick indices: `poll k`
is the state observed at the k-th ticker firing, and the select window
covers `connectTimeoutTicks` ticks (10 s / 100 ms). -/

/-- Ticks of the 100 ms poll ticker that fit in the 10-second select
window. -/
def connectTimeoutTicks : Nat := 100

/-- The first tick at which the watcher goroutine acts: it closes the
`connected` channel on `Connected` and returns silently on `Failed` or
`Closed` (checked in that order each tick). -/
def watcherFirstEvent (poll : Nat → PCState) : Option Nat :=
  (List.range (connectTimeoutTicks + 1)).find?
    (fun k => poll k = PCState.connected ∨ poll k = PCState.failed ∨ poll k = PCState.closed)

/-- Model of the wait at the end of the older `Client.Start`: `ok` if the
watcher closed `connected` within the window, the timeout error
otherwise (also when the watcher died on `Failed`/`Closed` without
closing the channel). -/
def startWaitGo (poll : Nat → PCState) : Except String Unit :=
  match watcherFirstEvent poll with
  | some k =>
    if poll k = PCState.connected then .ok ()
    else .error "timeout waiting for peer connection to be connected"
  | none => .error "timeout waiting for peer connection to be connected"

/-! ## Ring-buffer reader/writer interleaving (for the blocking-read claim)

One consumer runs `(*AudioBuffer).Read` while one producer runs
`(*AudioBuffer).Write`; goroutine interleaving is a step relation.  The
writer's whole critical section is one step (it never blocks while holding
the lock); the reader is split at its blocking points: acquiring the
mutex, testing `size == 0`, sleeping in `cond.Wait` (which releases the
mutex), and returning (which releases it via `defer`).  `cond.Signal`
moves a sleeping reader back to the acquiring phase. -/

/-- The reader's position inside `Read`. -/
inductive RPhase where
  | acquiring : RPhase
  | checking : RPhase
  | waiting : RPhase
  | returned (n : Nat) : RPhase
deriving DecidableEq

/-- A system state: the shared buffer, whether the reader holds the mutex,
the reader's phase, and ghost counters for completed writes and total
bytes written. -/
structure RBSys where
  ab : AudioBuffer
  readerHoldsLock : Bool
  reader : RPhase
  writes : Nat
  written : Nat

/-- The initial state of the blocking-read scenario: empty buffer
(`S = 0`), a reader that has just called `Read`, no writes yet. -/
def rbInit (cap : Nat) : RBSys :=
  ⟨NewAudioBuffer cap, false, .acquiring, 0, 0⟩

/-- One interleaving step of the reader/writer system. -/
inductive RBStep (pLen : Nat) : RBSys → RBSys → Prop where
  | acquire (s : RBSys) (h : s.reader = .acquiring) (hl : s.readerHoldsLock = false) :
      RBStep pLen s { s with readerHoldsLock := true, reader := .checking }
  | checkEmpty (s : RBSys) (h : s.reader = .checking) (hz : s.ab.size = 0) :
      RBStep pLen s { s with readerHoldsLock := false, reader := .waiting }
  | checkNonempty (s : RBSys) (h : s.reader = .checking) (hz : s.ab.size ≠ 0) :
      RBStep pLen s { s with
        readerHoldsLock := false,
        reader := .returned (audioBufferReadCore s.ab pLen).1,
        ab := (audioBufferReadCore s.ab pLen).2 }
  | write (s : RBSys) (data : List Nat) (dropped : Nat) (ab' : AudioBuffer)
      (hl : s.readerHoldsLock = false)
      (hw : audioBufferWrite s.ab data = some (dropped, ab')) :
      RBStep pLen s { s with
        ab := ab',
        reader := if s.reader = .waiting then .acquiring else s.reader,
        writes := s.writes + 1,
        written := s.written + data.length }

/-- Reachability from a state by interleaving steps. -/
inductive RBReachable (pLen : Nat) : RBSys → RBSys → Prop where
  | refl (s : RBSys) : RBReachable pLen s s
  | tail (s t u : RBSys) (hst : RBReachable pLen s t) (htu : RBStep pLen t u) :
      RBReachable pLen s u

/-- The inductive invariant of the reader/writer system: a sleeping reader
never holds the mutex, no bytes exist before the first write, and while no
byte has been written the buffer is empty and the reader cannot have
returned. -/
def RBInv (s : RBSys) : Prop :=
  (s.reader = .waiting → s.readerHoldsLock = false) ∧
  (s.writes = 0 → s.written = 0) ∧
  (s.written = 0 → s.ab.buffer = [] ∧ s.ab.size = 0 ∧ ∀ n, s.reader ≠ .returned n)

/-! ## Claim C1: ring-buffer write with FIFO eviction -/

/-- C1, counterexample: the claim quantifies over writes "of any length",
but a write with `len(data) > cap` needs to drop more bytes than the
buffer holds, and the Go re-slice `ab.buffer[drop:]` then panics instead
of dropping the oldest bytes and returning the dropped count.  Concretely,
writing two bytes into a fresh capacity-1 buffer crashes: there is no
returned `(droppedCount, state)` at all. -/
theorem c1_counterexample :
    audioBufferWrite (NewAudioBuffer 1) [0, 0] = none ∧
    ¬ ∃ dropped ab', audioBufferWrite (NewAudioBuffer 1) [0, 0] = some (dropped, ab') := by
  refine ⟨rfl, ?_⟩
  rintro ⟨dropped, ab', h⟩
  simp [audioBufferWrite, NewAudioBuffer] at h

/-- C1, amended: for every write with `len(data) ≤ C` from a well-formed
state, `Write` drops exactly the oldest `S + len(data) - C` bytes (zero
when there is room), returns that count, keeps the newest bytes (the
written data is a suffix of the new buffer), and afterwards the buffer
holds exactly the last `min(C, S + len(data))` bytes of the old contents
followed by `data`, in order. -/
theorem c1_write_fifo (ab : AudioBuffer) (data : List Nat)
    (hwf : ab.wf) (hlen : data.length ≤ ab.cap) :
    audioBufferWrite ab data =
      some (ab.size + data.length - ab.cap,
        ⟨(ab.buffer ++ data).drop (ab.size + data.length - ab.cap),
         min ab.cap (ab.size + data.length), ab.cap⟩) ∧
    data <:+ (ab.buffer ++ data).drop (ab.size + data.length - ab.cap) ∧
    ((ab.buffer ++ data).drop (ab.size + data.length - ab.cap)).length
      = min ab.cap (ab.size + data.length) := by
  have hS : ab.size = ab.buffer.length := hwf
  by_cases hover : ab.size + data.length > ab.cap
  · have hdrop : ab.size + data.length - ab.cap ≤ ab.buffer.length := by omega
    have hbuf : (ab.buffer ++ data).drop (ab.size + data.length - ab.cap)
        = ab.buffer.drop (ab.size + data.length - ab.cap) ++ data :=
      List.drop_append_of_le_length hdrop
    refine ⟨?_, ?_, ?_⟩
    · rw [audioBufferWrite, if_pos hover, if_pos hdrop, hbuf]
      have hsz : ab.size - (ab.size + data.length - ab.cap) + data.length
          = min ab.cap (ab.size + data.length) := by omega
      rw [hsz]
    · rw [hbuf]
      exact List.suffix_append _ _
    · rw [List.length_drop, List.length_append]
      omega
  · have h0 : ab.size + data.length - ab.cap = 0 := by omega
    rw [h0]
    refine ⟨?_, ?_, ?_⟩
    · rw [audioBufferWrite, if_neg hover, List.drop_zero]
      have hsz : ab.size + data.length = min ab.cap (ab.size + data.length) := by omega
      rw [← hsz]
    · rw [List.drop_zero]
      exact List.suffix_append _ _
    · rw [List.drop_zero, List.length_append]
      omega

/-- C1, witness: a concrete overflowing write.  Capacity 3, two bytes
occupied, two bytes written: the single oldest byte is dropped, `Write`
returns 1, and the buffer holds the last three bytes in order. -/
theorem c1_write_fifo_witness :
    audioBufferWrite ⟨[1, 2], 2, 3⟩ [3, 4] = some (1, ⟨[2, 3, 4], 3, 3⟩) :=
  (c1_write_fifo ⟨[1, 2], 2, 3⟩ [3, 4] rfl (by decide)).1

/-! ## Claim C2: encode/decode round trip of the event layer -/

theorem ratelimitElems_map_obj (l : List Jmap) : ratelimitElems (l.map Json.obj) = .ok l := by
  induction l with
  | nil => rfl
  | cons a rest ih => simp [ratelimitElems, ih, Except.map]

attribute [simp] mlookup getStr getObj mdelete minsert asInt asFloat64 ratTrunc_intCast
  paramType paramJson paramNew unmarshalServerEventMap marshalServerEventMap
  ratelimitElems_map_obj serverEventParamErrorNew serverEventParamSessionCreatedNew
  serverEventParamSessionUpdatedNew serverEventParamConversationItemAddedNew
  serverEventParamConversationItemDoneNew serverEventParamConversationItemRetrievedNew
  serverEventParamConversationItemInputAudioTranscriptionCompletedNew
  serverEventParamConversationItemInputAudioTranscriptionDeltaNew
  serverEventParamConversationItemInputAudioTranscriptionSegmentNew
  serverEventParamConversationItemInputAudioTranscriptionFailedNew
  serverEventParamConversationItemTruncatedNew serverEventParamConversationItemDeletedNew
  serverEventParamInputAudioBufferCommittedNew serverEventParamInputAudioBufferClearedNew
  serverEventParamInputAudioBufferSpeechStartedNew serverEventParamInputAudioBufferSpeechStoppedNew
  serverEventParamInputAudioBufferTimeoutTriggeredNew serverEventParamOutputAudioBufferStartedNew
  serverEventParamOutputAudioBufferStoppedNew serverEventParamOutputAudioBufferClearedNew
  serverEventParamResponseCreatedNew serverEventParamResponseDoneNew
  serverEventParamResponseOutputItemAddedNew serverEventParamResponseOutputItemDoneNew
  serverEventParamResponseContentPartAddedNew serverEventParamResponseContentPartDoneNew
  serverEventParamResponseOutputTextDeltaNew serverEventParamResponseOutputTextDoneNew
  serverEventParamResponseOutputAudioTranscriptDeltaNew
  serverEventParamResponseOutputAudioTranscriptDoneNew
  serverEventParamResponseOutputAudioDeltaNew serverEventParamResponseOutputAudioDoneNew
  serverEventParamResponseFunctionCallArgumentsDeltaNew
  serverEventParamResponseFunctionCallArgumentsDoneNew
  serverEventParamResponseMCPCallArgumentsDeltaNew serverEventParamResponseMCPCallArgumentsDoneNew
  serverEventParamResponseMCPCallInProgressNew serverEventParamResponseMCPCallCompletedNew
  serverEventParamResponseMCPCallFailedNew serverEventParamMCPListToolsInProgressNew
  serverEventParamMCPListToolsCompletedNew serverEventParamMCPListToolsFailedNew
  serverEventParamRatelimitsUpdatedNew

/-- C2, counterexample: for the kind `input_audio_buffer.cleared` (whose
parameter shape has no fields and emits an empty `Json()` map) the
decoded-then-encoded wire structure is never field-for-field equivalent to
the input.  A decodable cleared message must carry at least one payload
key (otherwise decoding fails with `missing param`), and re-encoding drops
that key: here the input holds key `x` but the re-encoded map does not. -/
theorem c2_counterexample :
    unmarshalServerEventMap
        [("event_id", .str "e1"), ("type", .str "input_audio_buffer.cleared"), ("x", .null)]
      = .ok ⟨"e1", "input_audio_buffer.cleared", .ServerEventParamInputAudioBufferCleared⟩ ∧
    marshalServerEventMap
        ⟨"e1", "input_audio_buffer.cleared", .ServerEventParamInputAudioBufferCleared⟩
      = .ok [("event_id", .str "e1"), ("type", .str "input_audio_buffer.cleared")] ∧
    mlookup [("event_id", Json.str "e1"), ("type", Json.str "input_audio_buffer.cleared")] "x"
      = none ∧
    mlookup [("event_id", Json.str "e1"), ("type", Json.str "input_audio_buffer.cleared"),
      ("x", Json.null)] "x" = some .null := by
  exact ⟨rfl, rfl, rfl, rfl⟩

/-- C2, amended: for every supported kind except `input_audio_buffer.cleared`,
encode after decode reproduces the wire map exactly on canonically encoded
messages — equivalently, decoding the encoding of any well-formed event
(`EventId` non-empty) of such a kind yields the event back, including the
error kind's nested `error` sub-object against its flat in-memory record.
For `input_audio_buffer.cleared` the round trip fails (see the
counterexample), and messages outside the canonical image (extra keys, the
flattened error form) are not reproduced field-for-field. -/
theorem c2_roundtrip (id : String) (p : EventParam) (hid : id ≠ "")
    (hk : paramType p ≠ "input_audio_buffer.cleared") :
    (marshalServerEventMap ⟨id, paramType p, p⟩).bind unmarshalServerEventMap
      = .ok ⟨id, paramType p, p⟩ := by
  cases p with
  | ServerEventParamInputAudioBufferCleared => exact absurd rfl hk
  | ServerEventParamConversationItemInputAudioTranscriptionDelta itemId ci delta obf =>
    by_cases hobf : obf = "" <;> simp [hid, hobf, Except.bind, Except.map]
  | ServerEventParamConversationItemInputAudioTranscriptionSegment itemId ci text segId
      speaker startTime endTime =>
    by_cases hsp : speaker = "" <;> simp [hid, hsp, Except.bind, Except.map]
  | ServerEventParamConversationItemInputAudioTranscriptionCompleted itemId ci transcript usage =>
    cases usage <;> simp [hid, Except.bind, Except.map]
  | _ => simp [hid, Except.bind, Except.map]

/-- C2, witness: the round trip at a concrete error event — the flat
in-memory record encodes to the nested wire shape and decodes back to the
same flat record. -/
theorem c2_roundtrip_witness :
    (marshalServerEventMap ⟨"e1", "error",
        .ServerEventParamError "server_error" "" "code1" "boom" .null⟩).bind
      unmarshalServerEventMap
      = .ok ⟨"e1", "error", .ServerEventParamError "server_error" "" "code1" "boom" .null⟩ :=
  c2_roundtrip "e1" (.ServerEventParamError "server_error" "" "code1" "boom" .null)
    (by decide) (by decide)

/-! ## Claim C3: unknown kinds decode to an explicit outcome -/

/-- C3, counterexample: a message whose kind tag `zzz` is outside the
vocabulary but which carries no payload key does not reach the type
switch: decoding fails earlier with the ordinary `missing param` error,
not with the explicit unknown-kind outcome. -/
theorem c3_counterexample :
    unmarshalServerEventMap [("event_id", .str "e1"), ("type", .str "zzz")]
      = .error "missing param" ∧
    ("missing param" : String) ≠ "unknown event type: zzz" := by
  exact ⟨rfl, by decide⟩

/-- C3, amended: for every inbound message with string `event_id` and
`type` fields whose kind tag lies outside the closed vocabulary and which
carries at least one further key, decoding yields the explicit
`unknown event type: <kind>` error (a non-crashing outcome whose text
names the unknown kind, distinct from the `missing ...` decode failures),
so callers can log the event and continue; a field-less unknown-kind
message instead fails earlier with `missing param`. -/
theorem c3_unknown_kind (id t : String) (rest : Jmap)
    (ht : t ∉ serverEventTypes) (hne : rest ≠ [])
    (hkeys : ∀ kv ∈ rest, kv.1 ≠ "event_id" ∧ kv.1 ≠ "type") :
    unmarshalServerEventMap ([("event_id", .str id), ("type", .str t)] ++ rest)
      = .error ("unknown event type: " ++ t) := by
  have hr1 : mdelete rest "event_id" = rest :=
    mdelete_of_not_mem rest _ (fun kv h => (hkeys kv h).1)
  have hr2 : mdelete rest "type" = rest :=
    mdelete_of_not_mem rest _ (fun kv h => (hkeys kv h).2)
  have ht' : t ≠ "error" ∧ t ≠ "session.created" ∧ t ≠ "session.updated" ∧
      t ≠ "conversation.item.added" ∧ t ≠ "conversation.item.done" ∧
      t ≠ "conversation.item.retrieved" ∧
      t ≠ "conversation.item.input_audio_transcription.completed" ∧
      t ≠ "conversation.item.input_audio_transcription.delta" ∧
      t ≠ "conversation.item.input_audio_transcription.segment" ∧
      t ≠ "conversation.item.input_audio_transcription.failed" ∧
      t ≠ "conversation.item.truncated" ∧ t ≠ "conversation.item.deleted" ∧
      t ≠ "input_audio_buffer.committed" ∧ t ≠ "input_audio_buffer.cleared" ∧
      t ≠ "input_audio_buffer.speech_started" ∧ t ≠ "input_audio_buffer.speech_stopped" ∧
      t ≠ "input_audio_buffer.timeout_triggered" ∧ t ≠ "output_audio_buffer.started" ∧
      t ≠ "output_audio_buffer.stopped" ∧ t ≠ "output_audio_buffer.cleared" ∧
      t ≠ "response.created" ∧ t ≠ "response.done" ∧ t ≠ "response.output_item.added" ∧
      t ≠ "response.output_item.done" ∧ t ≠ "response.content_part.added" ∧
      t ≠ "response.content_part.done" ∧ t ≠ "response.output_text.delta" ∧
      t ≠ "response.output_text.done" ∧ t ≠ "response.output_audio_transcript.delta" ∧
      t ≠ "response.output_audio_transcript.done" ∧ t ≠ "response.output_audio.delta" ∧
      t ≠ "response.output_audio.done" ∧ t ≠ "response.function_call_arguments.delta" ∧
      t ≠ "response.function_call_arguments.done" ∧ t ≠ "response.mcp_call_arguments.delta" ∧
      t ≠ "response.mcp_call_arguments.done" ∧ t ≠ "response.mcp_call.in_progress" ∧
      t ≠ "response.mcp_call.completed" ∧ t ≠ "response.mcp_call.failed" ∧
      t ≠ "mcp_list_tools.in_progress" ∧ t ≠ "mcp_list_tools.completed" ∧
      t ≠ "mcp_list_tools.failed" ∧ t ≠ "rate_limits.updated" := by
    simpa [serverEventTypes, not_or] using ht
  obtain ⟨kv, rest', rfl⟩ : ∃ kv rest', rest = kv :: rest' := by
    cases rest with
    | nil => exact absurd rfl hne
    | cons kv rest' => exact ⟨kv, rest', rfl⟩
  have hfil : List.filter (fun a => !decide (a.1 = "type") && !decide (a.1 = "event_id"))
      (kv :: rest') = kv :: rest' := by
    apply List.filter_eq_self.mpr
    intro a ha
    simp [(hkeys a ha).1, (hkeys a ha).2]
  simp [hr1, hr2, hfil, Except.map, ht']

/-- C3, witness: an unknown kind `zzz` with one payload key decodes to the
explicit unknown-kind error. -/
theorem c3_unknown_kind_witness :
    unmarshalServerEventMap [("event_id", .str "e1"), ("type", .str "zzz"), ("x", .null)]
      = .error "unknown event type: zzz" :=
  c3_unknown_kind "e1" "zzz" [("x", .null)] (by decide) (by simp) (by simp)

/-! ## Claim C10: field-less events can never decode -/

/-- C10: decoding any message carrying a valid string `event_id` and a
valid string `type` but no other keys always fails with `missing param`,
whatever the type — even though the extraction contract of
`input_audio_buffer.cleared` itself accepts an empty map.  A field-less
event can therefore never be decoded successfully. -/
theorem c10_fieldless_missing_param :
    (∀ id t : String,
      unmarshalServerEventMap [("event_id", .str id), ("type", .str t)]
        = .error "missing param") ∧
    serverEventParamInputAudioBufferClearedNew []
      = .ok .ServerEventParamInputAudioBufferCleared :=
  ⟨fun _ _ => rfl, rfl⟩

/-! ## Claim C4: transcript deltas and the seed label -/

/-- C4, counterexample: in the initial state the remote party is active
(`turn = 0`) and the user is the inactive speaker, with the user's buffer
still holding its seed label.  The claim says a user delta now emits
label+delta and clears the buffer; the code instead emits nothing and
accumulates the delta into the buffer. -/
theorem c4_counterexample :
    pipeEvent NewCLIState
        ⟨"e1", "conversation.item.input_audio_transcription.delta",
         .ServerEventParamConversationItemInputAudioTranscriptionDelta "i1" 0 "Hello" ""⟩
      = some ("", ⟨userLabel ++ "Hello", coachLabel, 0⟩) ∧
    ("" : String) ≠ userLabel ++ "Hello" := by
  exact ⟨rfl, by decide⟩

/-- C4, amended: it is the *active* speaker (the turn owner), not the
inactive one, whose delta flushes the stored buffer: on a delta for the
turn owner whose buffer is non-empty (in particular when it still holds
its seed label), the code emits buffer+delta and clears that buffer to the
empty string; once cleared, further deltas for that still-active speaker
are emitted bare (without the label) and leave the state unchanged.
Deltas for the inactive speaker instead accumulate silently (see the
counterexample). -/
theorem c4_active_delta (s : CLIState) (eid itemId rid : String) (ci oi ci2 : Int)
    (d : String) :
    (s.turn = 1 → s.userTrans ≠ "" →
      pipeEvent s ⟨eid, "conversation.item.input_audio_transcription.delta",
          .ServerEventParamConversationItemInputAudioTranscriptionDelta itemId ci d ""⟩
        = some (s.userTrans ++ d, { s with userTrans := "" })) ∧
    (s.turn = 1 → s.userTrans = "" →
      pipeEvent s ⟨eid, "conversation.item.input_audio_transcription.delta",
          .ServerEventParamConversationItemInputAudioTranscriptionDelta itemId ci d ""⟩
        = some (d, s)) ∧
    (s.turn = 0 → s.coachTrans ≠ "" →
      pipeEvent s ⟨eid, "response.output_audio_transcript.delta",
          .ServerEventParamResponseOutputAudioTranscriptDelta rid itemId oi ci2 d⟩
        = some (s.coachTrans ++ d, { s with coachTrans := "" })) ∧
    (s.turn = 0 → s.coachTrans = "" →
      pipeEvent s ⟨eid, "response.output_audio_transcript.delta",
          .ServerEventParamResponseOutputAudioTranscriptDelta rid itemId oi ci2 d⟩
        = some (d, s)) := by
  refine ⟨fun ht hu => ?_, fun ht hu => ?_, fun ht hc => ?_, fun ht hc => ?_⟩
  · simp [pipeEvent, ht, hu]
  · simp [pipeEvent, ht, hu]
  · simp [pipeEvent, ht, hc]
  · simp [pipeEvent, ht, hc]

/-- C4, witness: with the user active (`turn = 1`) and the user buffer at
its seed label, a user delta emits label+delta once and clears the
buffer; from the cleared state the next delta is emitted bare. -/
theorem c4_active_delta_witness :
    pipeEvent ⟨userLabel, coachLabel, 1⟩
        ⟨"e1", "conversation.item.input_audio_transcription.delta",
         .ServerEventParamConversationItemInputAudioTranscriptionDelta "i1" 0 "Hello" ""⟩
      = some (userLabel ++ "Hello", ⟨"", coachLabel, 1⟩) ∧
    pipeEvent ⟨"", coachLabel, 1⟩
        ⟨"e2", "conversation.item.input_audio_transcription.delta",
         .ServerEventParamConversationItemInputAudioTranscriptionDelta "i1" 0 " there" ""⟩
      = some (" there", ⟨"", coachLabel, 1⟩) :=
  ⟨(c4_active_delta ⟨userLabel, coachLabel, 1⟩ "e1" "i1" "" 0 0 0 "Hello").1 rfl (by decide),
   (c4_active_delta ⟨"", coachLabel, 1⟩ "e2" "i1" "" 0 0 0 " there").2.1 rfl rfl⟩

/-! ## Claim C5: the five-event transcript trace -/

/-- C5: from the initial transcript state, the sequence
[remote delta "Hi", remote delta " there", remote completed,
user delta "Hello", user completed] produces exactly five non-empty
emissions in order: label+"Hi", " there", a paragraph break,
label+"Hello", a paragraph break — the label once per utterance and one
paragraph break per completion.  The final state has both buffers reset to
their seed labels and the remote party active again. -/
theorem c5_transcript_trace :
    pipeTrace NewCLIState
        [⟨"e1", "response.output_audio_transcript.delta",
          .ServerEventParamResponseOutputAudioTranscriptDelta "r1" "i1" 0 0 "Hi"⟩,
         ⟨"e2", "response.output_audio_transcript.delta",
          .ServerEventParamResponseOutputAudioTranscriptDelta "r1" "i1" 0 0 " there"⟩,
         ⟨"e3", "response.output_audio_transcript.done",
          .ServerEventParamResponseOutputAudioTranscriptDone "r1" "i1" 0 0 "Hi there"⟩,
         ⟨"e4", "conversation.item.input_audio_transcription.delta",
          .ServerEventParamConversationItemInputAudioTranscriptionDelta "i2" 0 "Hello" ""⟩,
         ⟨"e5", "conversation.item.input_audio_transcription.completed",
          .ServerEventParamConversationItemInputAudioTranscriptionCompleted "i2" 0 "Hello" none⟩]
      = some ([coachLabel ++ "Hi", " there", "\n\n", userLabel ++ "Hello", "\n\n"],
          ⟨userLabel, coachLabel, 0⟩) ∧
    ([coachLabel ++ "Hi", " there", "\n\n", userLabel ++ "Hello", "\n\n"].all
      (fun out => !(out == ""))) = true := by
  exact ⟨rfl, by decide⟩

/-! ## Claim C6: double close -/

/-- C6, counterexample: on a freshly created client the first `Close`
succeeds, but the second `Close` returns an error — `respectCtx` fails
because the first close cancelled the client's context — contradicting
"returns no error" (although no second teardown happens). -/
theorem c6_counterexample :
    (clientClose newGoClient).1 = .ok () ∧
    (clientClose (clientClose newGoClient).2).1
      = .error "respecting client context: context canceled" ∧
    (Except.error "respecting client context: context canceled" : Except String Unit)
      ≠ .ok () := by
  refine ⟨rfl, rfl, by simp⟩

/-- C6, amended: after a successful first `close()`, a second `close()`
returns the wrapped context-cancelled error (not success), performs no
second teardown of the transport, and leaves the client state unchanged:
the peer connection is released exactly once (by the first close when it
was present, never by the second). -/
theorem c6_double_close (c : GoClient) (hcancel : c.cancelPresent = true)
    (hok : (clientClose c).1 = .ok ()) :
    (clientClose (clientClose c).2).1
      = .error "respecting client context: context canceled" ∧
    (clientClose (clientClose c).2).2 = (clientClose c).2 ∧
    (clientClose c).2.pcCloseCount
      = c.pcCloseCount + (if c.pcPresent then 1 else 0) ∧
    (clientClose (clientClose c).2).2.pcCloseCount = (clientClose c).2.pcCloseCount := by
  obtain ⟨pc, cnt, cp, cd, run⟩ := c
  subst hcancel
  cases cd with
  | true => simp [clientClose, respectCtx] at hok
  | false => cases pc <;> simp [clientClose, respectCtx]

/-- C6, witness: the concrete freshly-created client — first close tears
the transport down once, the second close errors and changes nothing. -/
theorem c6_double_close_witness :
    (clientClose (clientClose newGoClient).2).1
      = .error "respecting client context: context canceled" ∧
    (clientClose newGoClient).2.pcCloseCount = 1 ∧
    (clientClose (clientClose newGoClient).2).2.pcCloseCount = 1 := by
  have h := c6_double_close newGoClient rfl rfl
  refine ⟨h.1, ?_, ?_⟩
  · rw [h.2.2.1]
    rfl
  · rw [h.2.2.2, h.2.2.1]
    rfl

/-! ## Claim C7: connect-attempt timeout -/

/-- C7: if no terminal connection state (Connected, Disconnected, Failed
or Closed) is observed at any poll tick within the 10-second window, the
connect wait of `Client.Start` returns the timeout error, and the
connection is left in a non-Connected state (the state observed at the end
of the window is not Connected). -/
theorem c7_connect_timeout (poll : Nat → PCState)
    (h : ∀ k ≤ connectTimeoutTicks, (poll k).isTerminal = false) :
    startWaitGo poll = .error "timeout waiting for peer connection to be connected" ∧
    poll connectTimeoutTicks ≠ PCState.connected := by
  have hterm : ∀ k ≤ connectTimeoutTicks,
      poll k ≠ PCState.connected ∧ poll k ≠ PCState.failed ∧ poll k ≠ PCState.closed := by
    intro k hk
    have := h k hk
    cases hpk : poll k <;> simp_all [PCState.isTerminal]
  have hfind : watcherFirstEvent poll = none := by
    rw [watcherFirstEvent, List.find?_eq_none]
    intro k hk
    have hk' : k ≤ connectTimeoutTicks := by
      have := List.mem_range.mp hk
      omega
    obtain ⟨h1, h2, h3⟩ := hterm k hk'
    simp [h1, h2, h3]
  refine ⟨?_, (hterm connectTimeoutTicks le_rfl).1⟩
  rw [startWaitGo, hfind]

/-- C7, witness: a connection that stays in `Connecting` at every tick of
the window makes the start wait fail with the timeout error. -/
theorem c7_connect_timeout_witness :
    startWaitGo (fun _ => PCState.connecting)
      = .error "timeout waiting for peer connection to be connected" ∧
    (fun _ => PCState.connecting) connectTimeoutTicks ≠ PCState.connected :=
  c7_connect_timeout (fun _ => PCState.connecting) (by decide)

/-! ## Claim C8: blocking read never returns before a write, lock released -/

theorem rbInv_init (cap : Nat) : RBInv (rbInit cap) := by
  refine ⟨?_, ?_, ?_⟩ <;> simp [rbInit, NewAudioBuffer]

theorem rbInv_step {pLen : Nat} {s u : RBSys} (hinv : RBInv s) (hstep : RBStep pLen s u) :
    RBInv u := by
  obtain ⟨hlock, hwz, hwr⟩ := hinv
  cases hstep with
  | acquire h hl =>
    refine ⟨by simp [h], by simpa using hwz, ?_⟩
    intro h0
    obtain ⟨hb, hs, hr⟩ := hwr h0
    refine ⟨hb, hs, ?_⟩
    intro n
    simp
  | checkEmpty h hz =>
    refine ⟨by simp, by simpa using hwz, ?_⟩
    intro h0
    obtain ⟨hb, hs, hr⟩ := hwr h0
    exact ⟨hb, hs, by intro n; simp⟩
  | checkNonempty h hz =>
    refine ⟨by simp [h], by simpa using hwz, ?_⟩
    intro h0
    obtain ⟨hb, hs, hr⟩ := hwr h0
    exact absurd hs hz
  | write data dropped ab' hl hw =>
    refine ⟨?_, by simp, ?_⟩
    · intro hwreader
      simpa using hl
    · intro h0
      simp at h0
      obtain ⟨hw0, hd0⟩ := h0
      obtain ⟨hb, hs, hr⟩ := hwr hw0
      subst hd0
      rw [audioBufferWrite] at hw
      rw [hs] at hw
      simp at hw
      have hcap : ¬ (0 + 0 > s.ab.cap) := by omega
      rw [hb] at hw
      refine ⟨?_, ?_, ?_⟩
      · simp [← hw.2]
      · simp [← hw.2, hs]
      · intro n
        by_cases hwait : s.reader = RPhase.waiting <;> simp [hwait, hr n]

theorem rbInv_reachable {pLen cap : Nat} {s : RBSys}
    (h : RBReachable pLen (rbInit cap) s) : RBInv s := by
  induction h with
  | refl => exact rbInv_init cap
  | tail t u hst htu ih => exact rbInv_step ih htu

/-- C8: starting from a `Read` that arrives while `S = 0`, in every
reachable interleaving state (i) a reader sleeping in `cond.Wait` does not
hold the buffer's lock, so a concurrent writer is never blocked by the
sleeping reader, and (ii) if the read has returned, at least one `Write`
call — writing at least one byte — happened first: the read can never
return before a subsequent write makes `S` positive. -/
theorem c8_blocking_read (cap pLen : Nat) (s : RBSys)
    (h : RBReachable pLen (rbInit cap) s) :
    (s.reader = .waiting → s.readerHoldsLock = false) ∧
    (∀ n, s.reader = .returned n → 0 < s.writes ∧ 0 < s.written) := by
  obtain ⟨hlock, hwz, hwr⟩ := rbInv_reachable h
  refine ⟨hlock, ?_⟩
  intro n hret
  constructor
  · by_contra hz
    have hw0 : s.writes = 0 := by omega
    exact (hwr (hwz hw0)).2.2 n hret
  · by_contra hz
    have hw0 : s.written = 0 := by omega
    exact (hwr hw0).2.2 n hret

/-- C8, witness: a concrete interleaving — one write of one byte, then the
reader acquires the lock and returns — is reachable, and the theorem
yields that the write preceded the return. -/
theorem c8_blocking_read_witness :
    ∃ s : RBSys, RBReachable 2 (rbInit 4) s ∧ s.reader = .returned 1 ∧
      0 < s.writes ∧ 0 < s.written := by
  have h1 : RBStep 2 (rbInit 4) ⟨⟨[7], 1, 4⟩, false, .acquiring, 1, 1⟩ :=
    RBStep.write (rbInit 4) [7] 0 ⟨[7], 1, 4⟩ rfl rfl
  have h2 : RBStep 2 (⟨⟨[7], 1, 4⟩, false, .acquiring, 1, 1⟩ : RBSys)
      ⟨⟨[7], 1, 4⟩, true, .checking, 1, 1⟩ :=
    RBStep.acquire _ rfl rfl
  have h3 : RBStep 2 (⟨⟨[7], 1, 4⟩, true, .checking, 1, 1⟩ : RBSys)
      ⟨⟨[], 0, 4⟩, false, .returned 1, 1, 1⟩ :=
    RBStep.checkNonempty _ rfl (by decide)
  have hreach : RBReachable 2 (rbInit 4) ⟨⟨[], 0, 4⟩, false, .returned 1, 1, 1⟩ :=
    RBReachable.tail _ _ _
      (RBReachable.tail _ _ _ (RBReachable.tail _ _ _ (RBReachable.refl _) h1) h2) h3
  exact ⟨⟨⟨[], 0, 4⟩, false, .returned 1, 1, 1⟩, hreach, rfl,
    (c8_blocking_read 4 2 _ hreach).2 1 rfl⟩

/-! ## Claim C9: the ready channel is closed exactly once -/

theorem connWatch_step_nonterminal (h : ConnWatch) (x : PCState)
    (hx : x.isTerminal = false) :
    (onConnectionStateChange h x).gotClosed = h.gotClosed ∧
    (onConnectionStateChange h x).closeCount = h.closeCount ∧
    (onConnectionStateChange h x).ctxDone = h.ctxDone := by
  cases hc : h.ctxDone <;> cases x <;>
    simp_all [onConnectionStateChange, PCState.isTerminal]

theorem connWatch_fold_nonterminal (l : List PCState) (h : ConnWatch)
    (hl : ∀ x ∈ l, x.isTerminal = false) :
    (l.foldl onConnectionStateChange h).gotClosed = h.gotClosed ∧
    (l.foldl onConnectionStateChange h).closeCount = h.closeCount ∧
    (l.foldl onConnectionStateChange h).ctxDone = h.ctxDone := by
  induction l generalizing h with
  | nil => exact ⟨rfl, rfl, rfl⟩
  | cons x rest ih =>
    have hx := connWatch_step_nonterminal h x (hl x (by simp))
    have hrest := ih (onConnectionStateChange h x) (fun y hy => hl y (by simp [hy]))
    simp only [List.foldl_cons]
    exact ⟨hrest.1.trans hx.1, hrest.2.1.trans hx.2.1, hrest.2.2.trans hx.2.2⟩

theorem connWatch_step_closed (h : ConnWatch) (x : PCState) (hg : h.gotClosed = true) :
    (onConnectionStateChange h x).gotClosed = true ∧
    (onConnectionStateChange h x).closeCount = h.closeCount := by
  cases hc : h.ctxDone <;> cases x <;>
    simp_all [onConnectionStateChange]

theorem connWatch_fold_closed (l : List PCState) (h : ConnWatch) (hg : h.gotClosed = true) :
    (l.foldl onConnectionStateChange h).gotClosed = true ∧
    (l.foldl onConnectionStateChange h).closeCount = h.closeCount := by
  induction l generalizing h with
  | nil => exact ⟨hg, rfl⟩
  | cons x rest ih =>
    have hx := connWatch_step_closed h x hg
    have hrest := ih (onConnectionStateChange h x) hx.1
    simp only [List.foldl_cons]
    exact ⟨hrest.1, hrest.2.trans hx.2⟩

theorem connWatch_step_terminal (h : ConnWatch) (t : PCState)
    (ht : t.isTerminal = true) (hg : h.gotClosed = false) (hc : h.ctxDone = false) :
    (onConnectionStateChange h t).gotClosed = true ∧
    (onConnectionStateChange h t).closeCount = h.closeCount + 1 := by
  cases t <;> simp_all [onConnectionStateChange, PCState.isTerminal]

/-- C9: across any delivered sequence of connection-state notifications
that consists of non-terminal states, then a first terminal state
(Connected, Disconnected, Failed or Closed), then anything at all, the
`connected` ready channel is closed exactly at that first terminal
notification and never again: zero closes before it, exactly one
immediately after it, and still exactly one after every later
notification — the completion signal fires at most once. -/
theorem c9_ready_closed_once (pre suf : List PCState) (t : PCState)
    (hpre : ∀ x ∈ pre, x.isTerminal = false) (ht : t.isTerminal = true) :
    (runConnWatch pre).closeCount = 0 ∧
    (runConnWatch (pre ++ [t])).closeCount = 1 ∧
    (runConnWatch (pre ++ t :: suf)).closeCount = 1 := by
  have hfold := connWatch_fold_nonterminal pre connWatchInit hpre
  have hstep := connWatch_step_terminal (pre.foldl onConnectionStateChange connWatchInit) t ht
    (by rw [hfold.1]; rfl) (by rw [hfold.2.2]; rfl)
  have hcount1 : (onConnectionStateChange
      (pre.foldl onConnectionStateChange connWatchInit) t).closeCount = 1 := by
    rw [hstep.2, hfold.2.1]
    rfl
  refine ⟨by rw [runConnWatch, hfold.2.1]; rfl, ?_, ?_⟩
  · rw [runConnWatch, List.foldl_append]
    simpa using hcount1
  · rw [runConnWatch, List.foldl_append, List.foldl_cons]
    have hsuf := connWatch_fold_closed suf
      (onConnectionStateChange (pre.foldl onConnectionStateChange connWatchInit) t) hstep.1
    rw [hsuf.2, hcount1]

/-- C9, witness: after `Connecting`, the first terminal notification
`Connected` closes the channel; the later terminal `Disconnected` leaves
the close count at one. -/
theorem c9_ready_closed_once_witness :
    (runConnWatch [PCState.connecting]).closeCount = 0 ∧
    (runConnWatch [PCState.connecting, PCState.connected]).closeCount = 1 ∧
    (runConnWatch [PCState.connecting, PCState.connected, PCState.disconnected]).closeCount
      = 1 :=
  c9_ready_closed_once [PCState.connecting] [PCState.disconnected] PCState.connected
    (by decide) rfl
